import Mathlib

/-!
Verification of the LingoFlow client-side orchestration pipeline.

The development shallowly embeds the TypeScript sources:
  * `types.ts` — data model (`TranslationResult`, `Flashcard`, `VisualType`);
  * `services/geminiService.ts` — generation client, speech cache, PCM
    decoding and the playback controller;
  * `components/ExploreView.tsx` — the exploration orchestrator
    (`handleSearch`, `handleAddToFlashcards`, `handleSendMessage`,
    `handlePlayAudio`) and the Add-to-Flashcards button gating;
  * `App.tsx` — the flashcard store (`addFlashcard`).

Network calls are modelled by passing the backend's response in as an
explicit argument of type `Except Unit α` (`Except.error` = the awaited
promise rejected / the call threw).  Stateful React `setState` sequences
are modelled as lists of successive state snapshots.  JavaScript's
`string | undefined` fields are modelled as `Option String`, with
`Option.getD ""` playing the role of `x || ''` and truthiness tests on
strings mapping to `≠ ""`.
-/

namespace LingoFlow

/-- From `types.ts`: the visual kinds `IMAGE`, `SVG`, `VIDEO`. -/
inductive VisualType where
  | Image
  | SVG
  | Video
deriving DecidableEq, Repr

/-- From `types.ts`: `TranslationResult` with five optional string fields.
`none` models a JavaScript `undefined` field; `some ""` models an empty
string (the two are distinct, as in the source). -/
structure TranslationResult where
  definition : Option String
  story : Option String
  translation : Option String
  definitionTranslation : Option String
  storyTranslation : Option String
deriving DecidableEq, Repr

/-- From `types.ts`: the persistent `Flashcard` record. -/
structure Flashcard where
  id : String
  sourceText : String
  definition : String
  story : String
  translation : String
  definitionTranslation : String
  storyTranslation : String
  targetLangCode : String
  sourceLangCode : String
  createdAt : Nat
  visualType : Option VisualType
  visualContent : Option String
deriving DecidableEq, Repr

/-- Chat roles from `ExploreView.tsx`'s `ChatMessage` interface. -/
inductive Role where
  | user
  | model
deriving DecidableEq, Repr

/-- From `ExploreView.tsx`: a chat transcript entry. -/
structure ChatMessage where
  role : Role
  text : String
deriving DecidableEq, Repr

/-! ## Generation client (`services/geminiService.ts`)

Each client function takes the backend response as an explicit
`Except Unit _` argument and returns an `Except Unit _`: returning
`Except.error ()` models the TypeScript function throwing to its caller,
returning `Except.ok` models a normal return. -/

/-- Models JavaScript's `String.prototype.trim()`: strips leading and
trailing whitespace, character by character. -/
def jsTrim (s : String) : String :=
  ⟨((s.data.dropWhile Char.isWhitespace).reverse.dropWhile
      Char.isWhitespace).reverse⟩

/-- From `geminiService.ts`, `translateTextSimple`: the whole backend call
is wrapped in `try`/`catch`; on failure it logs and returns `''`; on
success it returns `response.text?.trim() || ''`.  It therefore never
throws, which the `Except`-valued embedding makes explicit: both branches
produce `Except.ok`. -/
def translateTextSimple (backend : Except Unit (Option String)) :
    Except Unit String :=
  match backend with
  | Except.error _ => Except.ok ""
  | Except.ok t => Except.ok ((t.map jsTrim).getD "")

/-- The parsed shape of the rich-context JSON response.  The response
schema marks all five fields required, but `JSON.parse` of the fallback
string `"\x7b\x7d"` yields an object with every field absent, so all
fields are `Option String`. -/
structure RichData where
  definition : Option String
  story : Option String
  translation : Option String
  definitionTranslation : Option String
  storyTranslation : Option String
deriving DecidableEq, Repr

/-- The all-absent `RichData`, i.e. `JSON.parse("\x7b\x7d")`. -/
def emptyRichData : RichData := ⟨none, none, none, none, none⟩

/-- From `geminiService.ts`, `getRichContext`: no `try`/`catch`, so a
backend failure propagates (`Except.error`).  On success the code runs
`JSON.parse(response.text || '\x7b\x7d')`: the backend argument carries
`none` when the response has no text (then the fallback parses to the
empty object) and `some d` when it carries well-formed JSON parsing to
`d`. -/
def getRichContext (backend : Except Unit (Option RichData)) :
    Except Unit RichData :=
  match backend with
  | Except.error e => Except.error e
  | Except.ok none => Except.ok emptyRichData
  | Except.ok (some d) => Except.ok d

/-- From `geminiService.ts`, `chatWithAI`: no `try`/`catch`, so failure
propagates; on success it returns `result.text || ""`.  The message,
context string and history only feed the prompt. -/
def chatWithAI (backend : Except Unit (Option String)) (message : String)
    (context : String) (history : List ChatMessage) : Except Unit String :=
  match backend with
  | Except.error e => Except.error e
  | Except.ok t =>
      let _ := (message, context, history)
      Except.ok (t.getD "")

/-- From `geminiService.ts`, `generateVisualImage`: on success returns the
data URI built from the first part's inline data, or `null` when there is
none; the `catch` block logs and then rethrows (`throw e`), so a backend
failure still propagates to the caller. -/
def generateVisualImage (backend : Except Unit (Option String)) :
    Except Unit (Option String) :=
  match backend with
  | Except.error e => Except.error e
  | Except.ok none => Except.ok none
  | Except.ok (some d) => Except.ok (some ("data:image/png;base64," ++ d))

/-- From `geminiService.ts`, `generateVisualSvg`: the code-fence cleanup
`svg.replace(/xml-fence/g,'').replace(/svg-fence/g,'').replace(/fence/g,'').trim()`. -/
def stripCodeFences (s : String) : String :=
  jsTrim (((s.replace "```xml" "").replace "```svg" "").replace "```" "")

/-- Models `cleaned.includes("<svg")` from `generateVisualSvg`. -/
def includesSvgTag (s : String) : Bool :=
  (s.splitOn "<svg").length > 1

/-- From `geminiService.ts`, `generateVisualSvg`: no `try`/`catch`, so a
backend failure propagates; on success the text (or `''`) is stripped of
code fences and returned, or `null` when it contains no `<svg` tag. -/
def generateVisualSvg (backend : Except Unit (Option String)) :
    Except Unit (Option String) :=
  match backend with
  | Except.error e => Except.error e
  | Except.ok t =>
      let svg := stripCodeFences (t.getD "")
      if includesSvgTag svg then Except.ok (some svg) else Except.ok none

/-! ## Speech cache (`generateSpeech`) -/

/-- From `geminiService.ts`, `generateSpeech`: the cache key
``cacheKey = `${text}-${voiceName}` ``. -/
def speechCacheKey (text voiceName : String) : String :=
  text ++ "-" ++ voiceName

/-- Association-list model of the module-level `audioCache` map;
`cacheLookup` models `audioCache.get`/`audioCache.has`. -/
def cacheLookup : List (String × String) → String → Option String
  | [], _ => none
  | (k, v) :: rest, key => if k = key then some v else cacheLookup rest key

deriving instance DecidableEq for Except

/-- The observable outcome of one `generateSpeech` call: its return value,
the cache contents afterwards, and whether a network request was issued. -/
structure SpeechCall where
  result : Except Unit (Option String)
  cache : List (String × String)
  networkCalled : Bool
deriving DecidableEq, Repr

/-- From `geminiService.ts`, `generateSpeech`: on a cache hit for
`text-voiceName` it returns the cached payload without touching the
network; otherwise it calls the backend inside `try`/`catch` — on failure
it logs and returns `null`; on a response without audio data it returns
`null`; on success it stores the payload under the key and returns it.
It never throws. -/
def generateSpeech (cache : List (String × String)) (text voiceName : String)
    (backend : Except Unit (Option String)) : SpeechCall :=
  let cacheKey := speechCacheKey text voiceName
  match cacheLookup cache cacheKey with
  | some cached => ⟨Except.ok (some cached), cache, false⟩
  | none =>
      match backend with
      | Except.error _ => ⟨Except.ok none, cache, true⟩
      | Except.ok none => ⟨Except.ok none, cache, true⟩
      | Except.ok (some base64Audio) =>
          ⟨Except.ok (some base64Audio), (cacheKey, base64Audio) :: cache, true⟩

/-! ## Flashcard store (`App.tsx`) -/

/-- Models JavaScript's `String.prototype.toLowerCase()`: lowercases the
string character by character. -/
def toLowerCase (s : String) : String :=
  ⟨s.data.map Char.toLower⟩

/-- From `App.tsx`, `addFlashcard`: no-op when `flashcards.find` locates a
card whose lowercased `sourceText` equals the new card's lowercased
`sourceText`; otherwise prepends the card. -/
def addFlashcard (flashcards : List Flashcard) (card : Flashcard) :
    List Flashcard :=
  if (flashcards.find? fun f =>
      toLowerCase f.sourceText = toLowerCase card.sourceText).isSome then
    flashcards
  else
    card :: flashcards

/-- From `App.tsx`, `removeFlashcard`: filters out the card with the
matching id. -/
def removeFlashcard (flashcards : List Flashcard) (id : String) :
    List Flashcard :=
  flashcards.filter fun c => c.id ≠ id

/-! ## PCM decoding (`geminiService.ts`, `decodeAudioData`)

`decodeAudioData` views the byte payload as an `Int16Array` (16-bit
little-endian two's-complement on the platforms the app runs on), computes
`frameCount = dataInt16.length / numChannels`, and fills each channel with
`dataInt16[i * numChannels + channel] / 32768.0`.  Bytes are modelled as
`Nat < 256`; samples as rationals. -/

/-- The signed 16-bit value stored little-endian as bytes `lo`, `hi`. -/
def int16OfBytes (lo hi : Nat) : Int :=
  let u := lo + 256 * hi
  if u < 32768 then (u : Int) else (u : Int) - 65536

/-- Groups a byte list into consecutive (lo, hi) pairs, as the
`Int16Array` view does (the source always receives an even number of
bytes; a trailing odd byte would make the `Int16Array` constructor throw,
so it is not represented). -/
def bytePairs : List Nat → List (Nat × Nat)
  | lo :: hi :: rest => (lo, hi) :: bytePairs rest
  | _ => []

/-- The `dataInt16` view of the payload. -/
def dataInt16 (data : List Nat) : List Int :=
  (bytePairs data).map fun p => int16OfBytes p.1 p.2

/-- From `geminiService.ts`, `decodeAudioData`: one sample list per
channel; channel `c` holds `frameCount` samples, the `i`-th being
`dataInt16[i * numChannels + c] / 32768`. -/
def decodeAudioData (data : List Nat) (numChannels : Nat) :
    List (List ℚ) :=
  let d := dataInt16 data
  let frameCount := d.length / numChannels
  (List.range numChannels).map fun channel =>
    (List.range frameCount).map fun i =>
      ((d.getD (i * numChannels + channel) 0 : Int) : ℚ) / 32768

/-- From `geminiService.ts`, `playAudio`: it decodes with
`decodeAudioData(bytes, ctx, 24000, 1)`. -/
def playAudioSampleRate : Nat := 24000

/-- From `geminiService.ts`, `playAudio`: the channel count passed to
`decodeAudioData`. -/
def playAudioNumChannels : Nat := 1

/-! ## Playback controller (`geminiService.ts`, `stopAudio`/`playAudio`)

The module-level mutable state is `currentSource` (the last source node
stored by `playAudio`, nulled by `stopAudio` and by every `onended`
handler).  The browser event loop is modelled by a step function over
explicit actions:

  * `playOk id` — a `playAudio` call whose setup succeeds: it runs
    `stopAudio()` first, then starts a fresh source node `id`, installs
    the `onended` handler and sets `currentSource := id`;
  * `playFail id` — a `playAudio` call whose setup throws after
    `stopAudio()`: the `catch` block invokes the call's `onEnded`
    callback directly;
  * `endedEvent id` — the browser delivers the queued `ended` event of
    source `id`; the handler installed by `playAudio` unconditionally sets
    `currentSource := null` and invokes the call's `onEnded` callback;
  * `naturalEnd id` — source `id` reaches the end of its buffer: it stops
    sounding and its `ended` event is queued;
  * `stopCall` — an explicit `stopAudio()` call.

A source stopped by `stopAudio` stops sounding at once and has its
`ended` event queued; the event's handler runs at some later turn of the
event loop, which the action list makes explicit.  `playing` is the set
of sources currently emitting sound; `onEndedRuns` records (with
multiplicity) the playback ids whose `onEnded` callback has run. -/

/-- One `playAudio`/`stopAudio` action or browser event. -/
inductive AudioAction where
  | playOk (id : Nat)
  | playFail (id : Nat)
  | endedEvent (id : Nat)
  | naturalEnd (id : Nat)
  | stopCall
deriving DecidableEq, Repr

/-- The playback controller state. -/
structure AudioState where
  currentSource : Option Nat
  playing : List Nat
  endedPending : List Nat
  onEndedRuns : List Nat
  used : List Nat
deriving DecidableEq, Repr

/-- The state before any playback. -/
def initialAudioState : AudioState := ⟨none, [], [], [], []⟩

/-- From `geminiService.ts`, `stopAudio`: if `currentSource` is set, stop
it (a still-sounding source stops and has its `ended` event queued;
stopping an already-silent source is swallowed by the `try`/`catch`) and
null `currentSource`; otherwise a no-op. -/
def doStopAudio (s : AudioState) : AudioState :=
  match s.currentSource with
  | none => s
  | some i =>
      { s with
        currentSource := none
        endedPending :=
          if s.playing.contains i then i :: s.endedPending else s.endedPending
        playing := s.playing.erase i }

/-- One step of the playback controller.  Guards (`used`, membership in
`playing`/`endedPending`) make ill-formed actions no-ops so that `audioRun`
is total; source ids are fresh per `playAudio` invocation. -/
def audioStep (s : AudioState) (a : AudioAction) : AudioState :=
  match a with
  | AudioAction.playOk id =>
      if s.used.contains id then s
      else
        let s1 := doStopAudio s
        { s1 with
          currentSource := some id
          playing := id :: s1.playing
          used := id :: s1.used }
  | AudioAction.playFail id =>
      if s.used.contains id then s
      else
        let s1 := doStopAudio s
        { s1 with
          onEndedRuns := id :: s1.onEndedRuns
          used := id :: s1.used }
  | AudioAction.endedEvent id =>
      if s.endedPending.contains id then
        { s with
          endedPending := s.endedPending.erase id
          currentSource := none
          onEndedRuns := id :: s.onEndedRuns }
      else s
  | AudioAction.naturalEnd id =>
      if s.playing.contains id then
        { s with
          playing := s.playing.erase id
          endedPending := id :: s.endedPending }
      else s
  | AudioAction.stopCall => doStopAudio s

/-- Runs a sequence of playback actions from the initial state. -/
def audioRun (acts : List AudioAction) : AudioState :=
  acts.foldl audioStep initialAudioState

/-! ## Exploration orchestrator (`components/ExploreView.tsx`) -/

/-- The empty `LookupResult` set by `handleSearch` step 1 (all five fields
are the empty string, which drives the skeleton rendering). -/
def emptyResult : TranslationResult :=
  ⟨some "", some "", some "", some "", some ""⟩

/-- From `ExploreView.tsx`, `handleSearch`, restricted to the successive
values it assigns to `result` (the generation-client speech pre-warms and
the visual generation it also triggers never write `result`).  Returns the
list of `setResult` snapshots in order: the empty skeleton result; after
the awaited fast translation, the merge of `translation` alone; after the
awaited rich context, the wholesale replacement in which `translation`
prefers the fast value when non-empty (`simpleTranslation ||
richData.translation`).  A thrown rich-context call is caught by the
surrounding `try`/`catch`, which only logs, so no further snapshot is
produced.  The guard on blank input returns before any state change. -/
def handleSearch (inputText : String)
    (simpleBackend : Except Unit (Option String))
    (richBackend : Except Unit (Option RichData)) :
    List TranslationResult :=
  if jsTrim inputText = "" then []
  else
    match translateTextSimple simpleBackend with
    | Except.error _ => [emptyResult]
    | Except.ok simpleTranslation =>
        let s1 := { emptyResult with translation := some simpleTranslation }
        match getRichContext richBackend with
        | Except.error _ => [emptyResult, s1]
        | Except.ok richData =>
            [emptyResult, s1,
              { definition := richData.definition
                story := richData.story
                translation :=
                  if simpleTranslation = "" then richData.translation
                  else some simpleTranslation
                definitionTranslation := richData.definitionTranslation
                storyTranslation := richData.storyTranslation }]

/-- From `ExploreView.tsx`: the Add-to-Flashcards button's `disabled`
attribute, `hasAddedToFlashcards || !result.definition` (the source
comments it with "Disable until definition loads"). -/
def addButtonDisabled (hasAddedToFlashcards : Bool)
    (result : TranslationResult) : Bool :=
  hasAddedToFlashcards || result.definition.getD "" = ""

/-- From `ExploreView.tsx`, `handleAddToFlashcards`: returns `none` (no
card created) when `result` is null; otherwise builds the flashcard,
defaulting every absent or missing text field to `''` via `x || ''` and
the visual content to `undefined`. -/
def handleAddToFlashcards (inputText : String)
    (result : Option TranslationResult) (visualType : VisualType)
    (visualContent : Option String) (targetLangCode sourceLangCode : String)
    (now : Nat) : Option Flashcard :=
  match result with
  | none => none
  | some r =>
      some
        { id := toString now
          sourceText := inputText
          definition := r.definition.getD ""
          story := r.story.getD ""
          translation := r.translation.getD ""
          definitionTranslation := r.definitionTranslation.getD ""
          storyTranslation := r.storyTranslation.getD ""
          targetLangCode := targetLangCode
          sourceLangCode := sourceLangCode
          createdAt := now
          visualType := some visualType
          visualContent := visualContent }

/-- JavaScript template-string interpolation of a possibly-undefined
string field (an absent field prints as "undefined"). -/
def jsInterp (o : Option String) : String :=
  o.getD "undefined"

/-- The chat UI state touched by `handleSendMessage`: the transcript and
the `isChatLoading` flag. -/
structure ChatSnapshot where
  chatMessages : List ChatMessage
  isChatLoading : Bool
deriving DecidableEq, Repr

/-- From `ExploreView.tsx`, `handleSendMessage`, as the list of successive
(`chatMessages`, `isChatLoading`) snapshots.  Blank input or a null
`result` returns before any state change.  Otherwise the user's message is
appended and the loading flag set before the backend call; on success the
reply is appended and the `finally` block clears the flag; on failure the
`catch` only logs, so the transcript keeps exactly the optimistic user
entry and the `finally` block clears the flag. -/
def handleSendMessage (chatMessages : List ChatMessage) (chatInput : String)
    (inputText : String) (result : Option TranslationResult)
    (backend : Except Unit (Option String)) : List ChatSnapshot :=
  match result with
  | none => []
  | some r =>
      if jsTrim chatInput = "" then []
      else
        let userMsg := chatInput
        let afterUser := chatMessages ++ [⟨Role.user, userMsg⟩]
        let context := "Word: " ++ inputText ++ ". Definition: " ++
          jsInterp r.definition ++ ". Story: " ++ jsInterp r.story
        match chatWithAI backend userMsg context chatMessages with
        | Except.error _ => [⟨afterUser, true⟩, ⟨afterUser, false⟩]
        | Except.ok aiResponseText =>
            let afterAi := afterUser ++ [⟨Role.model, aiResponseText⟩]
            [⟨afterUser, true⟩, ⟨afterAi, true⟩, ⟨afterAi, false⟩]

/-! ## Field-monotonicity order on lookup results -/

/-- A lookup-result field counts as populated when it is present and
non-empty (both `undefined` and `''` render as skeleton placeholders). -/
def fieldPopulated (o : Option String) : Prop :=
  o.getD "" ≠ ""

instance (o : Option String) : Decidable (fieldPopulated o) := by
  unfold fieldPopulated
  infer_instance

/-- `resultLe a b`: no field populated in `a` is unpopulated in `b` —
the per-step monotonicity relation of the spec. -/
def resultLe (a b : TranslationResult) : Prop :=
  (fieldPopulated a.definition → fieldPopulated b.definition) ∧
  (fieldPopulated a.story → fieldPopulated b.story) ∧
  (fieldPopulated a.translation → fieldPopulated b.translation) ∧
  (fieldPopulated a.definitionTranslation →
    fieldPopulated b.definitionTranslation) ∧
  (fieldPopulated a.storyTranslation → fieldPopulated b.storyTranslation)

instance (a b : TranslationResult) : Decidable (resultLe a b) := by
  unfold resultLe
  infer_instance

/-! ## Theorems -/

/-- C5: `addFlashcard` is a no-op when the collection already holds a card
whose `sourceText` matches the new card's case-insensitively, and
otherwise prepends the new card; consequently adding two cards whose
`sourceText` differ only by case to the empty collection leaves exactly
one stored card. -/
theorem addFlashcard_dedup_spec (cards : List Flashcard)
    (card c1 c2 : Flashcard)
    (hcase : toLowerCase c1.sourceText = toLowerCase c2.sourceText) :
    ((cards.find? fun f =>
        toLowerCase f.sourceText = toLowerCase card.sourceText).isSome →
      addFlashcard cards card = cards) ∧
    ((cards.find? fun f =>
        toLowerCase f.sourceText = toLowerCase card.sourceText) = none →
      addFlashcard cards card = card :: cards) ∧
    (addFlashcard (addFlashcard [] c1) c2).length = 1 := by
  refine ⟨fun h => ?_, fun h => ?_, ?_⟩
  · simp only [addFlashcard, if_pos h]
  · simp [addFlashcard, h]
  · have h1 : addFlashcard [] c1 = [c1] := by
      simp [addFlashcard]
    rw [h1]
    have h2 : addFlashcard [c1] c2 = [c1] := by
      simp [addFlashcard, List.find?, hcase]
    rw [h2]
    rfl

/-- Witness for `addFlashcard_dedup_spec` at two concrete cards whose
`sourceText` are "Hello" and "HELLO". -/
theorem addFlashcard_dedup_spec_witness :
    toLowerCase "Hello" = toLowerCase "HELLO" ∧
    (addFlashcard
      (addFlashcard []
        ⟨"1", "Hello", "", "", "", "", "", "zh-CN", "en", 0, none, none⟩)
      ⟨"2", "HELLO", "", "", "", "", "", "zh-CN", "en", 0, none,
        none⟩).length = 1 := by
  refine ⟨by decide, ?_⟩
  exact (addFlashcard_dedup_spec []
    (⟨"1", "Hello", "", "", "", "", "", "zh-CN", "en", 0, none, none⟩)
    (⟨"1", "Hello", "", "", "", "", "", "zh-CN", "en", 0, none, none⟩)
    (⟨"2", "HELLO", "", "", "", "", "", "zh-CN", "en", 0, none, none⟩)
    (by decide)).2.2

/-- C3: a cache hit for `(text, voice)` short-circuits the network and
returns exactly the stored payload; on a miss with backend success the
payload is stored under the pair's key, so every later call with the same
pair is a no-network hit returning that same payload. -/
theorem generateSpeech_cache_spec :
    (∀ (cache : List (String × String)) (text voiceName p : String)
        (backend : Except Unit (Option String)),
      cacheLookup cache (speechCacheKey text voiceName) = some p →
      generateSpeech cache text voiceName backend =
        ⟨Except.ok (some p), cache, false⟩) ∧
    (∀ (cache : List (String × String)) (text voiceName p : String)
        (backend2 : Except Unit (Option String)),
      cacheLookup cache (speechCacheKey text voiceName) = none →
      generateSpeech cache text voiceName (Except.ok (some p)) =
        ⟨Except.ok (some p), (speechCacheKey text voiceName, p) :: cache,
          true⟩ ∧
      generateSpeech ((speechCacheKey text voiceName, p) :: cache) text
          voiceName backend2 =
        ⟨Except.ok (some p),
          (speechCacheKey text voiceName, p) :: cache, false⟩) := by
  constructor
  · intro cache text voiceName p backend h
    simp only [generateSpeech, h]
  · intro cache text voiceName p backend2 h
    constructor
    · simp only [generateSpeech, h]
    · simp [generateSpeech, cacheLookup]

/-- Witness for `generateSpeech_cache_spec`: a concrete miss-then-hit
sequence for the pair ("hi", "Puck"). -/
theorem generateSpeech_cache_spec_witness :
    cacheLookup [] (speechCacheKey "hi" "Puck") = none ∧
    cacheLookup [(speechCacheKey "hi" "Puck", "pcm")]
      (speechCacheKey "hi" "Puck") = some "pcm" ∧
    generateSpeech [(speechCacheKey "hi" "Puck", "pcm")] "hi" "Puck"
      (Except.error ()) =
      ⟨Except.ok (some "pcm"), [(speechCacheKey "hi" "Puck", "pcm")],
        false⟩ ∧
    generateSpeech [] "hi" "Puck" (Except.ok (some "pcm")) =
      ⟨Except.ok (some "pcm"), [(speechCacheKey "hi" "Puck", "pcm")],
        true⟩ := by
  refine ⟨by decide, by decide, ?_, ?_⟩
  · exact generateSpeech_cache_spec.1 [(speechCacheKey "hi" "Puck", "pcm")]
      "hi" "Puck" "pcm" (Except.error ()) (by decide)
  · exact (generateSpeech_cache_spec.2 [] "hi" "Puck" "pcm"
      (Except.error ()) (by decide)).1

/-- C6 (failing trace): the claimed playback exclusivity breaks on the
action sequence "play source 1; play source 2 (stops 1 and queues 1's
`ended` event); the browser delivers 1's `ended` event (whose handler
unconditionally nulls `currentSource`, with no identity check, while 2 is
still playing); play source 3".  The third `playAudio` call's
`stopAudio()` then finds `currentSource = null` and stops nothing, so
sources 2 and 3 are both playing afterwards — two simultaneously active
audio sources, contradicting the claim (and the source's own comment
"Stop any currently playing audio"). -/
theorem playAudio_exclusivity_violation :
    (audioRun [AudioAction.playOk 1, AudioAction.playOk 2,
      AudioAction.endedEvent 1, AudioAction.playOk 3]).playing = [3, 2] ∧
    (audioRun [AudioAction.playOk 1, AudioAction.playOk 2,
      AudioAction.endedEvent 1, AudioAction.playOk 3]).playing.length = 2 := by
  exact ⟨rfl, rfl⟩

/-- C2 (counterexample to the parenthetical "the commit path does not
require the lookup to be complete"): in the lookup state reached right
after the fast-translate snapshot and before rich context arrives —
exactly the state `handleSearch` leaves behind when rich context fails —
the Add-to-Flashcards button is disabled
(`disabled = hasAddedToFlashcards || !result.definition`, commented
"Disable until definition loads" in the source), so the UI blocks the
commit until the rich-context definition has loaded. -/
theorem addToFlashcards_gated_counterexample :
    (handleSearch "hello" (Except.ok (some "你好"))
        (Except.error ())).getLast? =
      some { emptyResult with translation := some "你好" } ∧
    addButtonDisabled false { emptyResult with translation := some "你好" } =
      true := by
  exact ⟨by decide, by decide⟩

/-- C2 (amended): invoking `handleAddToFlashcards` on a lookup whose rich
context has not arrived yields a flashcard whose `definition` and `story`
(and both translation glosses) are the empty string, and `addFlashcard`
accepts such a card; the store itself does not require completeness — but
the Add-to-Flashcards button is disabled in that state, so the UI commit
path does require the definition to have loaded. -/
theorem handleAddToFlashcards_partial_commit :
    ∃ card,
      handleAddToFlashcards "hello"
        (some { emptyResult with translation := some "你好" })
        VisualType.Image none "zh-CN" "en" 1730000000 = some card ∧
      card.definition = "" ∧ card.story = "" ∧ card.translation = "你好" ∧
      card.definitionTranslation = "" ∧ card.storyTranslation = "" ∧
      addFlashcard [] card = [card] ∧
      addButtonDisabled false
        { emptyResult with translation := some "你好" } = true := by
  refine ⟨_, rfl, rfl, rfl, rfl, rfl, rfl, by decide, by decide⟩

/-- C9: the cache key joins text and voice with a single hyphen, so the
distinct pairs ("a-b", "c") and ("a", "b-c") share the key "a-b-c"; after
synthesizing the first pair, a synthesis of the second pair is a cache hit
that returns the first pair's payload without any network call. -/
theorem speechCacheKey_collision :
    speechCacheKey "a-b" "c" = speechCacheKey "a" "b-c" ∧
    (generateSpeech [] "a-b" "c" (Except.ok (some "payload1"))).cache =
      [("a-b-c", "payload1")] ∧
    generateSpeech [("a-b-c", "payload1")] "a" "b-c" (Except.error ()) =
      ⟨Except.ok (some "payload1"), [("a-b-c", "payload1")], false⟩ := by
  refine ⟨by decide, by decide, by decide⟩

/-- Any lookup-result state extends the all-empty skeleton result. -/
theorem emptyResult_le (x : TranslationResult) : resultLe emptyResult x := by
  simp [resultLe, fieldPopulated, emptyResult]

/-- C1: when the rich-context call throws after the fast translation was
merged, the final `result` snapshot keeps the fast translation and empty
definition/story; and for every backend outcome the sequence of `result`
snapshots within one `handleSearch` is monotone — no step reverts a
populated field of the current lookup result to empty. -/
theorem handleSearch_partial_monotone (inputText : String)
    (simpleBackend : Except Unit (Option String))
    (richBackend : Except Unit (Option RichData))
    (simpleTranslation : String) (hinput : jsTrim inputText ≠ "")
    (hsimple : translateTextSimple simpleBackend =
      Except.ok simpleTranslation) :
    handleSearch inputText simpleBackend (Except.error ()) =
      [emptyResult,
        { emptyResult with translation := some simpleTranslation }] ∧
    List.Chain' resultLe (handleSearch inputText simpleBackend richBackend)
    := by
  constructor
  · simp only [handleSearch, if_neg hinput, hsimple, getRichContext]
  · simp only [handleSearch, if_neg hinput, hsimple]
    cases hrich : getRichContext richBackend with
    | error e =>
        exact List.chain'_cons.mpr ⟨emptyResult_le _, List.chain'_singleton _⟩
    | ok richData =>
        refine List.chain'_cons.mpr ⟨emptyResult_le _,
          List.chain'_cons.mpr ⟨?_, List.chain'_singleton _⟩⟩
        refine ⟨fun h => ?_, fun h => ?_, fun h => ?_, fun h => ?_,
          fun h => ?_⟩ <;>
          simp only [fieldPopulated, emptyResult, Option.getD_some] at h ⊢
        · exact absurd rfl h
        · exact absurd rfl h
        · rw [if_neg h]
          simpa using h
        · exact absurd rfl h
        · exact absurd rfl h

/-- Witness for `handleSearch_partial_monotone`: input "hello", fast
translation "你好", rich context throwing. -/
theorem handleSearch_partial_monotone_witness :
    jsTrim "hello" ≠ "" ∧
    translateTextSimple (Except.ok (some "你好")) = Except.ok "你好" ∧
    (handleSearch "hello" (Except.ok (some "你好")) (Except.error ()) =
      [emptyResult, { emptyResult with translation := some "你好" }] ∧
    List.Chain' resultLe
      (handleSearch "hello" (Except.ok (some "你好")) (Except.error ()))) :=
  ⟨by decide, by decide,
    handleSearch_partial_monotone "hello" (Except.ok (some "你好"))
      (Except.error ()) "你好" (by decide) (by decide)⟩

/-- C10: a rich-context backend response carrying no text does not throw:
`getRichContext` parses the fallback "\x7b\x7d" and returns the record
with all five supposedly mandatory fields absent; `handleSearch` installs
it wholesale, so the final lookup result has `definition`, `story`,
`definitionTranslation` and `storyTranslation` absent (`none`), and
`translation` absent too whenever the fast translation was empty (it keeps
the non-empty fast translation otherwise, via
`simpleTranslation || richData.translation`). -/
theorem getRichContext_empty_response
    (simpleBackend : Except Unit (Option String)) (simpleTranslation : String)
    (hsimple : translateTextSimple simpleBackend =
      Except.ok simpleTranslation) :
    getRichContext (Except.ok none) = Except.ok emptyRichData ∧
    emptyRichData = ⟨none, none, none, none, none⟩ ∧
    (handleSearch "hello" simpleBackend (Except.ok none)).getLast? =
      some { definition := none, story := none
             translation :=
               if simpleTranslation = "" then none
               else some simpleTranslation
             definitionTranslation := none, storyTranslation := none } := by
  refine ⟨rfl, rfl, ?_⟩
  simp only [handleSearch, hsimple, getRichContext]
  rw [if_neg (by decide : ¬jsTrim "hello" = "")]
  simp [emptyRichData]

/-- Witness for `getRichContext_empty_response`: a failed fast-translate
backend (so the fast translation is the empty string) followed by a
rich-context response with no text leaves every field of the final lookup
result absent. -/
theorem getRichContext_empty_response_witness :
    translateTextSimple (Except.error ()) = Except.ok "" ∧
    (handleSearch "hello" (Except.error ()) (Except.ok none)).getLast? =
      some ⟨none, none, none, none, none⟩ := by
  refine ⟨by decide, ?_⟩
  have h := (getRichContext_empty_response (Except.error ()) "" rfl).2.2
  simpa using h

/-- C8: `handleSendMessage` appends the user's message to the transcript
(with the loading flag set) immediately before the chat call; when the
chat call throws, the transcript is left with exactly that optimistic user
entry — no reply is appended — and the `finally` block clears the loading
flag. -/
theorem handleSendMessage_failure_spec (chatMessages : List ChatMessage)
    (chatInput inputText : String) (r : TranslationResult)
    (hinput : jsTrim chatInput ≠ "") :
    handleSendMessage chatMessages chatInput inputText (some r)
        (Except.error ()) =
      [⟨chatMessages ++ [⟨Role.user, chatInput⟩], true⟩,
        ⟨chatMessages ++ [⟨Role.user, chatInput⟩], false⟩] := by
  simp only [handleSendMessage, if_neg hinput, chatWithAI]

/-- Witness for `handleSendMessage_failure_spec` at a concrete transcript
and message. -/
theorem handleSendMessage_failure_spec_witness :
    jsTrim "why?" ≠ "" ∧
    handleSendMessage [⟨Role.model, "hi"⟩] "why?" "hello"
        (some emptyResult) (Except.error ()) =
      [⟨[⟨Role.model, "hi"⟩, ⟨Role.user, "why?"⟩], true⟩,
        ⟨[⟨Role.model, "hi"⟩, ⟨Role.user, "why?"⟩], false⟩] :=
  ⟨by decide,
    handleSendMessage_failure_spec [⟨Role.model, "hi"⟩] "why?" "hello"
      emptyResult (by decide)⟩

/-- C4 (counterexample): the image and svg illustration calls do not
degrade to empty/null on backend failure — `generateVisualImage` logs and
then rethrows, and `generateVisualSvg` has no catch at all, so both
propagate the failure to their caller. -/
theorem visualCalls_throw_counterexample :
    generateVisualImage (Except.error ()) = Except.error () ∧
    generateVisualSvg (Except.error ()) = Except.error () :=
  ⟨rfl, rfl⟩

/-- C4 (amended): the fast-translate call never throws and returns the
empty string on backend failure; the speech call never throws and returns
null on a cache-miss backend failure; chat and rich-context propagate
failure to the orchestrator — but so do the image and svg illustration
calls (their degradation to null covers only an empty successful
response), whose failures the orchestrator catches in its visual
sub-operation. -/
theorem generationClient_failure_policy :
    (∀ b, ∃ s, translateTextSimple b = Except.ok s) ∧
    translateTextSimple (Except.error ()) = Except.ok "" ∧
    (∀ (cache : List (String × String)) (text voiceName : String) b,
      ∃ o, (generateSpeech cache text voiceName b).result = Except.ok o) ∧
    (∀ (cache : List (String × String)) (text voiceName : String),
      cacheLookup cache (speechCacheKey text voiceName) = none →
      generateSpeech cache text voiceName (Except.error ()) =
        ⟨Except.ok none, cache, true⟩) ∧
    generateVisualImage (Except.error ()) = Except.error () ∧
    generateVisualSvg (Except.error ()) = Except.error () ∧
    (∀ (message context : String) (history : List ChatMessage),
      chatWithAI (Except.error ()) message context history =
        Except.error ()) ∧
    getRichContext (Except.error ()) = Except.error () := by
  refine ⟨fun b => ?_, rfl, fun cache text voiceName b => ?_,
    fun cache text voiceName h => ?_, rfl, rfl, fun _ _ _ => rfl, rfl⟩
  · cases b with
    | error e => exact ⟨"", rfl⟩
    | ok t => exact ⟨_, rfl⟩
  · cases hc : cacheLookup cache (speechCacheKey text voiceName) with
    | some cached => exact ⟨some cached, by simp [generateSpeech, hc]⟩
    | none =>
        cases b with
        | error e => exact ⟨none, by simp [generateSpeech, hc]⟩
        | ok t =>
            cases t with
            | none => exact ⟨none, by simp [generateSpeech, hc]⟩
            | some payload =>
                exact ⟨some payload, by simp [generateSpeech, hc]⟩
  · simp only [generateSpeech, h]

/-- Witness for `generationClient_failure_policy`: the cache-miss speech
failure at a concrete empty cache. -/
theorem generationClient_failure_policy_witness :
    cacheLookup [] (speechCacheKey "hola" "Puck") = none ∧
    generateSpeech [] "hola" "Puck" (Except.error ()) =
      ⟨Except.ok none, [], true⟩ :=
  ⟨rfl, generationClient_failure_policy.2.2.2.1 [] "hola" "Puck" rfl⟩

/-- Both bytes of every pair produced by `bytePairs` come from the input
byte list. -/
theorem bytePairs_mem :
    ∀ (data : List Nat) (p : Nat × Nat), p ∈ bytePairs data →
      p.1 ∈ data ∧ p.2 ∈ data
  | lo :: hi :: rest, p, hp => by
      simp only [bytePairs, List.mem_cons] at hp
      cases hp with
      | inl h =>
          subst h
          exact ⟨List.mem_cons_self _ _,
            List.mem_cons_of_mem _ (List.mem_cons_self _ _)⟩
      | inr h =>
          have ih := bytePairs_mem rest p h
          exact ⟨List.mem_cons_of_mem _ (List.mem_cons_of_mem _ ih.1),
            List.mem_cons_of_mem _ (List.mem_cons_of_mem _ ih.2)⟩
  | [], p, hp => by simp [bytePairs] at hp
  | [lo], p, hp => by simp [bytePairs] at hp

/-- A little-endian signed 16-bit value read from two bytes lies in
[-32768, 32767]. -/
theorem int16OfBytes_bounds (lo hi : Nat) (hlo : lo < 256)
    (hhi : hi < 256) :
    -32768 ≤ int16OfBytes lo hi ∧ int16OfBytes lo hi ≤ 32767 := by
  simp only [int16OfBytes]
  split <;> omega

/-- Mapping a function over positional `getD` reads of a whole list is
mapping it over the list. -/
theorem range_map_getD {α β : Type} (d : α) (f : α → β) :
    ∀ l : List α,
      (List.range l.length).map (fun i => f (l.getD i d)) = l.map f
  | [] => rfl
  | a :: l => by
      rw [List.length_cons, List.range_succ_eq_map, List.map_cons,
        List.map_map]
      have h2 : ((fun i => f ((a :: l).getD i d)) ∘ Nat.succ) =
          fun i => f (l.getD i d) := by
        funext i
        simp
      rw [h2, range_map_getD d f l]
      simp

/-- C7: `decodeAudioData`, as invoked by `playAudio` (24 kHz, mono),
consumes the byte payload two bytes per sample — the mono channel is
exactly the little-endian signed 16-bit values of consecutive byte pairs,
each divided by 32768 — and every decoded sample lies in [-1, 1]. -/
theorem decodeAudioData_spec (data : List Nat)
    (hbytes : ∀ b ∈ data, b < 256) :
    playAudioSampleRate = 24000 ∧ playAudioNumChannels = 1 ∧
    decodeAudioData data playAudioNumChannels =
      [(bytePairs data).map fun p =>
        ((int16OfBytes p.1 p.2 : Int) : ℚ) / 32768] ∧
    ∀ channel ∈ decodeAudioData data playAudioNumChannels,
      channel.length = (bytePairs data).length ∧
      ∀ x ∈ channel, -1 ≤ x ∧ x ≤ 1 := by
  have hchan :
      decodeAudioData data playAudioNumChannels =
        [(bytePairs data).map fun p =>
          ((int16OfBytes p.1 p.2 : Int) : ℚ) / 32768] := by
    simp only [decodeAudioData, playAudioNumChannels, Nat.div_one,
      Nat.mul_one]
    rw [show List.range 1 = [0] by decide]
    simp only [List.map_cons, List.map_nil, Nat.add_zero]
    rw [range_map_getD (0 : Int) (fun v => ((v : Int) : ℚ) / 32768)
      (dataInt16 data)]
    rw [dataInt16, List.map_map]
    rfl
  refine ⟨rfl, rfl, hchan, ?_⟩
  intro channel hmem
  rw [hchan] at hmem
  simp only [List.mem_singleton] at hmem
  subst hmem
  refine ⟨by simp, ?_⟩
  intro x hx
  simp only [List.mem_map] at hx
  obtain ⟨p, hp, hpx⟩ := hx
  subst hpx
  have hm := bytePairs_mem data p hp
  have h1 := hbytes p.1 hm.1
  have h2 := hbytes p.2 hm.2
  have hb := int16OfBytes_bounds p.1 p.2 h1 h2
  have hlow : ((-32768 : Int) : ℚ) ≤ ((int16OfBytes p.1 p.2 : Int) : ℚ) :=
    Int.cast_le.mpr hb.1
  have hhigh : ((int16OfBytes p.1 p.2 : Int) : ℚ) ≤ ((32767 : Int) : ℚ) :=
    Int.cast_le.mpr hb.2
  constructor
  · rw [le_div_iff₀ (by norm_num : (0 : ℚ) < 32768)]
    push_cast at hlow ⊢
    linarith
  · rw [div_le_one (by norm_num : (0 : ℚ) < 32768)]
    push_cast at hhigh ⊢
    linarith

/-- Witness for `decodeAudioData_spec`: the two-byte payload 0x00 0x80 is
the single sample -32768, decoded to exactly -1. -/
theorem decodeAudioData_spec_witness :
    (∀ b ∈ [0, 128], b < 256) ∧
    (decodeAudioData [0, 128] playAudioNumChannels =
      [(bytePairs [0, 128]).map fun p =>
        ((int16OfBytes p.1 p.2 : Int) : ℚ) / 32768] ∧
    ∀ channel ∈ decodeAudioData [0, 128] playAudioNumChannels,
      channel.length = (bytePairs [0, 128]).length ∧
      ∀ x ∈ channel, -1 ≤ x ∧ x ≤ 1) :=
  ⟨by decide,
    ⟨(decodeAudioData_spec [0, 128] (by decide)).2.2.1,
      (decodeAudioData_spec [0, 128] (by decide)).2.2.2⟩⟩

end LingoFlow
